import Mathlib

/-!
Verification of the push-notification dispatch service of the
Lampatrack-Yeumbeul-Nord repository.

The dispatch core is a Deno edge function (`Deno.serve` handler): it
validates the inbound request, loads the user's push subscriptions,
builds one notification payload, sends it to every subscription in a
`for` loop with a per-attempt `try`/`catch`, collects endpoints whose
send failed with status code 410 or 404, issues one batched delete for
those endpoints, and returns `{ sent, failed }`.

The embedding below mirrors that handler: `notificationPayload` is the
payload construction, `loopStep`/`sendLoop` are the delivery loop,
`handler` is the whole request handler with its store effects made
explicit (`storeReads`, `deleteCalls`).  `upsert` models the
client-side subscription registration against the table created with
`UNIQUE(user_id, endpoint)` (Postgres `INSERT ... ON CONFLICT
(user_id, endpoint) DO UPDATE`).
-/

/-- One row of the `push_subscriptions` table as read by the edge
function (`sub.endpoint`, `sub.p256dh`, `sub.auth`). -/
structure Subscription where
  endpoint : String
  p256dh : String
  auth : String
  user_id : String
  deriving Repr, DecidableEq

/-- The exception thrown by `webpush.sendNotification`; the handler
only inspects its optional `statusCode` field. -/
structure PushError where
  statusCode : Option Nat
  deriving Repr, DecidableEq

/-- A transport oracle: what one call of `webpush.sendNotification`
does for each subscription (success, or a thrown error). -/
def Transport : Type := Subscription → Except PushError Unit

/-- The notification payload object built once before the loop
(the argument of `JSON.stringify` at the `notificationPayload`
binding). -/
structure Payload where
  title : String
  body : String
  icon : String
  badge : String
  tag : String
  dataSignalementId : String
  dataStatus : String
  deriving Repr, DecidableEq

/-- The payload construction: `isApproved := new_status === "approved"`
selects the title and body; every other status takes the rejected
branch. -/
def notificationPayload (signalement_id new_status : String) : Payload :=
  let isApproved := new_status = "approved"
  { title := if isApproved then "✅ Signalement approuvé" else "❌ Signalement rejeté"
    body := if isApproved
      then "Votre signalement a été approuvé par l\x27administrateur."
      else "Votre signalement a été rejeté par l\x27administrateur."
    icon := "/pwa-192x192.png"
    badge := "/pwa-192x192.png"
    tag := "signalement-" ++ signalement_id
    dataSignalementId := signalement_id
    dataStatus := new_status }

/-- State accumulated by the delivery loop: the `sent` counter and the
`failedEndpoints` array. -/
structure LoopResult where
  sent : Nat
  failedEndpoints : List String
  deriving Repr, DecidableEq

/-- One iteration of the `for (const sub of subscriptions)` loop:
`await webpush.sendNotification(...)` then `sent++`, or the `catch`
block, which pushes `sub.endpoint` exactly when the error carries
status code 410 or 404. -/
def loopStep (transport : Transport) (acc : LoopResult) (sub : Subscription) :
    LoopResult :=
  match transport sub with
  | Except.ok _ => { acc with sent := acc.sent + 1 }
  | Except.error e =>
    if e.statusCode = some 410 ∨ e.statusCode = some 404 then
      { acc with failedEndpoints := acc.failedEndpoints ++ [sub.endpoint] }
    else acc

/-- The whole delivery loop, starting from `sent = 0` and
`failedEndpoints = []`. -/
def sendLoop (transport : Transport) (subs : List Subscription) : LoopResult :=
  subs.foldl (loopStep transport) { sent := 0, failedEndpoints := [] }

/-- The spec's per-attempt outcome classification. -/
inductive Outcome where
  | delivered
  | transientFailure
  | permanentFailure
  deriving Repr, DecidableEq

/-- Classification of one transport result, read off the loop body:
success is delivered, a 410/404 error is permanent, everything else is
transient. -/
def classify : Except PushError Unit → Outcome
  | Except.ok _ => Outcome.delivered
  | Except.error e =>
    if e.statusCode = some 410 ∨ e.statusCode = some 404 then
      Outcome.permanentFailure
    else Outcome.transientFailure

/-- The list of per-attempt outcomes for a batch. -/
def outcomes (transport : Transport) (subs : List Subscription) : List Outcome :=
  subs.map (fun s => classify (transport s))

/-- Whether one attempt is a permanent failure (used to characterise
the prune list). -/
def permAttempt (transport : Transport) (s : Subscription) : Bool :=
  classify (transport s) = Outcome.permanentFailure

/-- Whether one attempt is delivered. -/
def okAttempt (transport : Transport) (s : Subscription) : Bool :=
  classify (transport s) = Outcome.delivered

/-- Whether one attempt is a transient failure. -/
def transAttempt (transport : Transport) (s : Subscription) : Bool :=
  classify (transport s) = Outcome.transientFailure

section LoopLemmas

theorem loopStep_sendLoop (transport : Transport) (acc : LoopResult)
    (subs : List Subscription) :
    subs.foldl (loopStep transport) acc =
      { sent := acc.sent + (subs.filter (okAttempt transport)).length,
        failedEndpoints := acc.failedEndpoints ++
          (subs.filter (permAttempt transport)).map Subscription.endpoint } := by
  induction subs generalizing acc with
  | nil => simp
  | cons s rest ih =>
    simp only [List.foldl_cons, ih]
    unfold loopStep okAttempt permAttempt classify
    cases h : transport s with
    | ok u =>
      simp [h, Nat.add_assoc, Nat.add_comm 1]
    | error e =>
      by_cases hc : e.statusCode = some 410 ∨ e.statusCode = some 404
      · simp [h, hc]
      · simp [h, hc]

theorem sendLoop_spec (transport : Transport) (subs : List Subscription) :
    sendLoop transport subs =
      { sent := (subs.filter (okAttempt transport)).length,
        failedEndpoints :=
          (subs.filter (permAttempt transport)).map Subscription.endpoint } := by
  unfold sendLoop
  rw [loopStep_sendLoop]
  simp

end LoopLemmas

/-- The parsed JSON request body `{ signalement_id, user_id, new_status }`;
a field may be absent (`none`). -/
structure Request where
  signalement_id : Option String
  user_id : Option String
  new_status : Option String
  deriving Repr, DecidableEq

/-- JavaScript truthiness of an optional string field, as used by the
guards `!signalement_id || !user_id || !new_status` and
`!vapidPublicKey || !vapidPrivateKey`: an absent value and the empty
string are falsy. -/
def isFalsy : Option String → Bool
  | none => true
  | some s => s = ""

/-- The environment variables the handler reads. -/
structure Env where
  vapidPublicKey : Option String
  vapidPrivateKey : Option String
  vapidSubject : Option String
  deriving Repr, DecidableEq

/-- The result of the `push_subscriptions` select: the supabase client
returns a pair `{ data, error }`. -/
structure QueryResult where
  data : Option (List Subscription)
  error : Option String
  deriving Repr, DecidableEq

/-- The JSON bodies the handler can return. -/
inductive Body where
  | errorMsg (msg : String)
  | noSubs
  | sentFailed (sent failed : Nat)
  deriving Repr, DecidableEq

/-- An HTTP response: status code and JSON body. -/
structure HttpResponse where
  status : Nat
  body : Body
  deriving Repr, DecidableEq

/-- The observable result of one handler run: the response, how many
store reads were performed, and the endpoint list of each delete call
issued. -/
structure HandlerResult where
  response : HttpResponse
  storeReads : Nat
  deleteCalls : List (List String)
  deriving Repr, DecidableEq

/-- The edge-function handler after JSON parsing, with the store
select result and the transport behaviour passed as oracles.  It
mirrors the source order: field validation (400), VAPID configuration
check (500), subscription select, the empty/error short-circuit (200,
"No subscriptions found"), the delivery loop, the conditional batched
delete, and the final `{ sent, failed }` response. -/
def handler (env : Env) (req : Request) (query : QueryResult)
    (transport : Transport) : HandlerResult :=
  if isFalsy req.signalement_id ∨ isFalsy req.user_id ∨ isFalsy req.new_status then
    { response := { status := 400, body := Body.errorMsg "Missing fields" },
      storeReads := 0, deleteCalls := [] }
  else if isFalsy env.vapidPublicKey ∨ isFalsy env.vapidPrivateKey then
    { response := { status := 500, body := Body.errorMsg "VAPID keys not configured" },
      storeReads := 0, deleteCalls := [] }
  else if query.error ≠ none ∨ query.data = none ∨ query.data = some [] then
    { response := { status := 200, body := Body.noSubs },
      storeReads := 1, deleteCalls := [] }
  else
    let subs := query.data.getD []
    let r := sendLoop transport subs
    { response := { status := 200, body := Body.sentFailed r.sent r.failedEndpoints.length },
      storeReads := 1,
      deleteCalls := if r.failedEndpoints.length > 0 then [r.failedEndpoints] else [] }

/-- The client-side subscription row written by `usePushNotifications`. -/
structure SubRow where
  user_id : String
  endpoint : String
  p256dh : String
  auth : String
  deriving Repr, DecidableEq

/-- Whether a stored row conflicts with a new row on the
`UNIQUE(user_id, endpoint)` constraint. -/
def rowConflicts (row r : SubRow) : Bool :=
  r.user_id = row.user_id ∧ r.endpoint = row.endpoint

/-- The `supabase.from("push_subscriptions").upsert(..., onConflict:
"user_id,endpoint")` call against the table of the migration, i.e.
Postgres `INSERT ... ON CONFLICT (user_id, endpoint) DO UPDATE`:
replace the row matching `(user_id, endpoint)` if one exists,
otherwise append. -/
def upsert (row : SubRow) (table : List SubRow) : List SubRow :=
  if table.any (rowConflicts row) then
    table.map (fun r => if rowConflicts row r then row else r)
  else table ++ [row]

section CountLemmas

theorem count_map_filter {α β : Type} [DecidableEq β] (f : α → β) (x : β)
    (l : List α) :
    (l.map f).count x = (l.filter (fun a => f a = x)).length := by
  induction l with
  | nil => rfl
  | cons a t ih =>
    by_cases h : f a = x
    · simp [List.count_cons, h, ih]
    · simp [List.count_cons, h, ih]

theorem sendLoop_sent_count (transport : Transport) (subs : List Subscription) :
    (sendLoop transport subs).sent =
      (outcomes transport subs).count Outcome.delivered := by
  rw [sendLoop_spec, outcomes, count_map_filter]
  rfl

theorem sendLoop_failed_count (transport : Transport) (subs : List Subscription) :
    (sendLoop transport subs).failedEndpoints.length =
      (outcomes transport subs).count Outcome.permanentFailure := by
  rw [sendLoop_spec, outcomes, count_map_filter]
  simp only [List.length_map]
  rfl

theorem outcome_partition (transport : Transport) (subs : List Subscription) :
    (subs.filter (okAttempt transport)).length +
      (subs.filter (transAttempt transport)).length +
      (subs.filter (permAttempt transport)).length = subs.length := by
  induction subs with
  | nil => rfl
  | cons s t ih =>
    cases h : classify (transport s) <;>
      simp [okAttempt, transAttempt, permAttempt, List.filter_cons, h] <;>
      omega

end CountLemmas

/-- A VAPID-configured environment used for concrete runs. -/
def okEnv : Env :=
  { vapidPublicKey := some "pub", vapidPrivateKey := some "priv",
    vapidSubject := some "mailto:admin@lampatrack.app" }

/-- A fully populated request with the known status value. -/
def validReq : Request :=
  { signalement_id := some "sig-1", user_id := some "u1", new_status := some "approved" }

/-- A fully populated request with a status value outside the mapping
(neither approved nor rejected). -/
def pendingReq : Request :=
  { signalement_id := some "sig-1", user_id := some "u1", new_status := some "pending" }

/-- Two stored subscriptions of the same user sharing one endpoint. -/
def dupSub1 : Subscription :=
  { endpoint := "https://push.example/ch1", p256dh := "k1", auth := "a1", user_id := "u1" }

/-- Second copy of the duplicated endpoint with different keys. -/
def dupSub2 : Subscription :=
  { endpoint := "https://push.example/ch1", p256dh := "k2", auth := "a2", user_id := "u1" }

/-- A select result holding the duplicated pair. -/
def dupQuery : QueryResult := { data := some [dupSub1, dupSub2], error := none }

/-- A transport for which every send throws with status code 410. -/
def goneTransport : Transport := fun _ => Except.error { statusCode := some 410 }

/-- A transport for which every send succeeds. -/
def okTransport : Transport := fun _ => Except.ok ()

theorem count_outcome_partition (l : List Outcome) :
    l.count Outcome.delivered + l.count Outcome.transientFailure +
      l.count Outcome.permanentFailure = l.length := by
  induction l with
  | nil => rfl
  | cons a t ih => cases a <;> simp [List.count_cons] <;> omega

theorem count_trans_filter (transport : Transport) (subs : List Subscription) :
    (outcomes transport subs).count Outcome.transientFailure =
      (subs.filter (transAttempt transport)).length := by
  rw [outcomes, count_map_filter]
  rfl

/-- C2: a delivery attempt is classified permanent exactly when the
transport error carries status code 410 or 404, and then its endpoint
is appended to the prune list; every other failure is transient and
changes neither the prune list nor the sent counter; a successful send
increments the sent counter. -/
theorem delivery_classification (e : PushError) (sub : Subscription)
    (acc : LoopResult) (transport : Transport) :
    classify (Except.ok ()) = Outcome.delivered ∧
    (classify (Except.error e) = Outcome.permanentFailure ↔
      (e.statusCode = some 410 ∨ e.statusCode = some 404)) ∧
    (classify (Except.error e) = Outcome.transientFailure ↔
      ¬ (e.statusCode = some 410 ∨ e.statusCode = some 404)) ∧
    (transport sub = Except.error e →
      ¬ (e.statusCode = some 410 ∨ e.statusCode = some 404) →
      loopStep transport acc sub = acc) ∧
    (transport sub = Except.error e →
      (e.statusCode = some 410 ∨ e.statusCode = some 404) →
      loopStep transport acc sub =
        { acc with failedEndpoints := acc.failedEndpoints ++ [sub.endpoint] }) ∧
    (transport sub = Except.ok () →
      loopStep transport acc sub = { acc with sent := acc.sent + 1 }) := by
  refine ⟨rfl, ?_, ?_, ?_, ?_, ?_⟩
  · unfold classify
    by_cases hc : e.statusCode = some 410 ∨ e.statusCode = some 404 <;> simp [hc]
  · unfold classify
    by_cases hc : e.statusCode = some 410 ∨ e.statusCode = some 404 <;> simp [hc]
  · intro ht hc
    unfold loopStep
    rw [ht]
    simp [hc]
  · intro ht hc
    unfold loopStep
    rw [ht]
    simp [hc]
  · intro ht
    unfold loopStep
    rw [ht]

/-- Concrete instantiation of the classification theorem: a 410 error
on a concrete subscription appends its endpoint to the prune list. -/
theorem delivery_classification_witness :
    loopStep goneTransport { sent := 0, failedEndpoints := [] } dupSub1 =
      { sent := 0, failedEndpoints := ["https://push.example/ch1"] } :=
  (delivery_classification { statusCode := some 410 } dupSub1
      { sent := 0, failedEndpoints := [] } goneTransport).2.2.2.2.1 rfl (Or.inl rfl)

/-- C3: for every subscription list and every pattern of per-attempt
transport errors, the loop yields exactly one classified outcome per
subscription and the batch aggregate accounts for all of them - the
counts of delivered, transient and permanent outcomes sum to the
number of subscriptions, so no attempt's failure aborts the batch. -/
theorem batch_isolation (transport : Transport) (subs : List Subscription) :
    (outcomes transport subs).length = subs.length ∧
    (sendLoop transport subs).sent =
      (outcomes transport subs).count Outcome.delivered ∧
    (sendLoop transport subs).failedEndpoints.length =
      (outcomes transport subs).count Outcome.permanentFailure ∧
    (sendLoop transport subs).sent +
      (outcomes transport subs).count Outcome.transientFailure +
      (sendLoop transport subs).failedEndpoints.length = subs.length := by
  refine ⟨by simp [outcomes], sendLoop_sent_count transport subs,
    sendLoop_failed_count transport subs, ?_⟩
  rw [sendLoop_sent_count, sendLoop_failed_count]
  have hlen : (outcomes transport subs).length = subs.length := by simp [outcomes]
  rw [← hlen]
  exact count_outcome_partition (outcomes transport subs)

/-- C4: counterexample - two subscriptions of one user share an
endpoint and every send fails with 410; the handler's single delete
call then carries that endpoint TWICE, so the endpoint does not appear
exactly once in the prune set and the duplicates were not
deduplicated before dispatch. -/
theorem prune_no_dedup_counterexample :
    (handler okEnv validReq dupQuery goneTransport).deleteCalls =
      [["https://push.example/ch1", "https://push.example/ch1"]] ∧
    ¬ ((handler okEnv validReq dupQuery goneTransport).deleteCalls.flatten.count
        "https://push.example/ch1" = 1) := by
  decide

/-- C4 amended: the coordinator performs no deduplication - every
occurrence of a duplicate endpoint is attempted, and an endpoint
appears in the prune list exactly as many times as it had
permanent-failure attempts in the batch. -/
theorem prune_multiplicity (transport : Transport) (subs : List Subscription)
    (e : String) :
    (sendLoop transport subs).failedEndpoints.count e =
      (subs.filter
        (fun s => decide (s.endpoint = e) && permAttempt transport s)).length := by
  rw [sendLoop_spec]
  show ((subs.filter (permAttempt transport)).map Subscription.endpoint).count e = _
  rw [count_map_filter, List.filter_filter]

theorem isFalsy_some (s : String) : isFalsy (some s) = decide (s = "") := rfl

/-- C1: counterexample - with `new_status = "pending"`, a value with
no entry in the status mapping, the handler does not reject the
request: it answers 200 after sending to both subscriptions, and the
payload it builds takes the rejected branch. -/
theorem unknown_status_counterexample :
    (handler okEnv pendingReq dupQuery okTransport).response =
      { status := 200, body := Body.sentFailed 2 0 } ∧
    (notificationPayload "sig-1" "pending").title = "❌ Signalement rejeté" := by
  decide

/-- C1 amended: a `new_status` other than `"approved"` is treated as
the rejected branch - the payload carries the non-blank rejected
title and body (never blank content), and a valid, configured request
with such a status is answered 200, not rejected with an error. -/
theorem unknown_status_rejected_branch (sid uid s : String) (env : Env)
    (query : QueryResult) (transport : Transport)
    (hs : s ≠ "approved") (hs0 : s ≠ "") (hsid : sid ≠ "") (huid : uid ≠ "")
    (hpub : isFalsy env.vapidPublicKey = false)
    (hpriv : isFalsy env.vapidPrivateKey = false) :
    (notificationPayload sid s).title = "❌ Signalement rejeté" ∧
    (notificationPayload sid s).body =
      "Votre signalement a été rejeté par l\x27administrateur." ∧
    (notificationPayload sid s).title ≠ "" ∧
    (notificationPayload sid s).body ≠ "" ∧
    (handler env
        { signalement_id := some sid, user_id := some uid, new_status := some s }
        query transport).response.status = 200 := by
  refine ⟨?_, ?_, ?_, ?_, ?_⟩
  · simp [notificationPayload, hs]
  · simp [notificationPayload, hs]
  · simp [notificationPayload, hs]
  · simp [notificationPayload, hs]
  · by_cases hq : query.error ≠ none ∨ query.data = none ∨ query.data = some []
    · simp [handler, isFalsy_some, hsid, huid, hs0, hpub, hpriv, hq]
    · simp [handler, isFalsy_some, hsid, huid, hs0, hpub, hpriv, hq]

/-- Concrete instantiation: the unknown status `"pending"` takes the
rejected branch and the concrete request is answered 200. -/
theorem unknown_status_rejected_branch_witness :
    (notificationPayload "sig-1" "pending").title = "❌ Signalement rejeté" ∧
    (notificationPayload "sig-1" "pending").body =
      "Votre signalement a été rejeté par l\x27administrateur." ∧
    (notificationPayload "sig-1" "pending").title ≠ "" ∧
    (notificationPayload "sig-1" "pending").body ≠ "" ∧
    (handler okEnv
        { signalement_id := some "sig-1", user_id := some "u1",
          new_status := some "pending" }
        dupQuery okTransport).response.status = 200 :=
  unknown_status_rejected_branch "sig-1" "u1" "pending" okEnv dupQuery okTransport
    (by decide) (by decide) (by decide) (by decide) rfl rfl

/-- C5: a valid, configured request for a user with an empty
subscription list is answered 200 with the "No subscriptions found"
body (`sent = 0`); one store read happens and no delete is issued. -/
theorem no_subscriptions_response (env : Env) (req : Request)
    (transport : Transport)
    (h1 : isFalsy req.signalement_id = false) (h2 : isFalsy req.user_id = false)
    (h3 : isFalsy req.new_status = false)
    (h4 : isFalsy env.vapidPublicKey = false)
    (h5 : isFalsy env.vapidPrivateKey = false) :
    handler env req { data := some [], error := none } transport =
      { response := { status := 200, body := Body.noSubs },
        storeReads := 1, deleteCalls := [] } := by
  simp [handler, h1, h2, h3, h4, h5]

/-- Concrete instantiation: the valid request with an empty
subscription list is answered with the no-subscriptions body. -/
theorem no_subscriptions_response_witness :
    handler okEnv validReq { data := some [], error := none } okTransport =
      { response := { status := 200, body := Body.noSubs },
        storeReads := 1, deleteCalls := [] } :=
  no_subscriptions_response okEnv validReq okTransport rfl rfl rfl rfl rfl

/-- C6: a request with any of the three fields missing (or empty) is
answered 400 with the "Missing fields" error, with zero store reads
and zero store writes; a fully populated request under absent VAPID
keys is answered 500, also before any store access. -/
theorem validation_before_store (env : Env) (req : Request)
    (query : QueryResult) (transport : Transport) :
    ((isFalsy req.signalement_id ∨ isFalsy req.user_id ∨ isFalsy req.new_status) →
      handler env req query transport =
        { response := { status := 400, body := Body.errorMsg "Missing fields" },
          storeReads := 0, deleteCalls := [] }) ∧
    (isFalsy req.signalement_id = false → isFalsy req.user_id = false →
      isFalsy req.new_status = false →
      (isFalsy env.vapidPublicKey ∨ isFalsy env.vapidPrivateKey) →
      handler env req query transport =
        { response := { status := 500, body := Body.errorMsg "VAPID keys not configured" },
          storeReads := 0, deleteCalls := [] }) := by
  constructor
  · intro h
    simp [handler, h]
  · intro h1 h2 h3 h
    simp [handler, h1, h2, h3, h]

/-- A request with `user_id` absent. -/
def missingReq : Request :=
  { signalement_id := some "sig-1", user_id := none, new_status := some "approved" }

/-- An environment without VAPID keys. -/
def noKeysEnv : Env :=
  { vapidPublicKey := none, vapidPrivateKey := none, vapidSubject := none }

/-- Concrete instantiations: a request without `user_id` is answered
400 without store access, and a keyless environment is answered 500
without store access. -/
theorem validation_before_store_witness :
    handler okEnv missingReq dupQuery okTransport =
      { response := { status := 400, body := Body.errorMsg "Missing fields" },
        storeReads := 0, deleteCalls := [] } ∧
    handler noKeysEnv validReq dupQuery okTransport =
      { response := { status := 500, body := Body.errorMsg "VAPID keys not configured" },
        storeReads := 0, deleteCalls := [] } :=
  ⟨(validation_before_store okEnv missingReq dupQuery okTransport).1
      (Or.inr (Or.inl rfl)),
   (validation_before_store noKeysEnv validReq dupQuery okTransport).2
      rfl rfl rfl (Or.inl rfl)⟩

/-- C7: counterexample - with a duplicated endpoint failing twice
with 410, the returned `failed` field equals the length of the prune
list (2), not the size of the set of pruned endpoints (1), at the same
concrete batch. -/
theorem failed_count_counterexample :
    (handler okEnv validReq dupQuery goneTransport).response.body =
      Body.sentFailed 0
        (handler okEnv validReq dupQuery goneTransport).deleteCalls.flatten.length ∧
    ¬ ((handler okEnv validReq dupQuery goneTransport).response.body =
      Body.sentFailed 0
        (handler okEnv validReq dupQuery goneTransport).deleteCalls.flatten.dedup.length) := by
  decide

/-- C7 amended: the returned aggregate is exactly `sent` = the number
of attempts classified delivered and `failed` = the length of the
prune list, i.e. the number of permanent-failure attempts (duplicate
endpoints counted once per attempt); no per-endpoint detail is in the
response. -/
theorem aggregate_response (env : Env) (req : Request) (transport : Transport)
    (subs : List Subscription)
    (h1 : isFalsy req.signalement_id = false) (h2 : isFalsy req.user_id = false)
    (h3 : isFalsy req.new_status = false)
    (h4 : isFalsy env.vapidPublicKey = false)
    (h5 : isFalsy env.vapidPrivateKey = false)
    (hne : subs ≠ []) :
    (handler env req { data := some subs, error := none } transport).response =
      { status := 200,
        body := Body.sentFailed
          ((outcomes transport subs).count Outcome.delivered)
          ((outcomes transport subs).count Outcome.permanentFailure) } := by
  have hsent := sendLoop_sent_count transport subs
  have hfail := sendLoop_failed_count transport subs
  simp [handler, h1, h2, h3, h4, h5, hne, ← hsent, ← hfail]

/-- Concrete instantiation: the duplicated-endpoint batch returns the
aggregate `sent = 0`, `failed = 2` (two permanent-failure attempts). -/
theorem aggregate_response_witness :
    (handler okEnv validReq { data := some [dupSub1, dupSub2], error := none }
        goneTransport).response =
      { status := 200,
        body := Body.sentFailed
          ((outcomes goneTransport [dupSub1, dupSub2]).count Outcome.delivered)
          ((outcomes goneTransport [dupSub1, dupSub2]).count Outcome.permanentFailure) } :=
  aggregate_response okEnv validReq goneTransport [dupSub1, dupSub2]
    rfl rfl rfl rfl rfl (by decide)

/-- C10: when the subscription select itself returns an error, a
valid, configured request is answered 200 with the "No subscriptions
found" body - a store read failure is indistinguishable to the caller
from the user having no subscriptions, and is never surfaced as an
error. -/
theorem store_error_masked (env : Env) (req : Request) (transport : Transport)
    (data : Option (List Subscription)) (msg : String)
    (h1 : isFalsy req.signalement_id = false) (h2 : isFalsy req.user_id = false)
    (h3 : isFalsy req.new_status = false)
    (h4 : isFalsy env.vapidPublicKey = false)
    (h5 : isFalsy env.vapidPrivateKey = false) :
    handler env req { data := data, error := some msg } transport =
      { response := { status := 200, body := Body.noSubs },
        storeReads := 1, deleteCalls := [] } := by
  simp [handler, h1, h2, h3, h4, h5]

/-- Concrete instantiation: a failed select on a valid, configured
request yields the 200 no-subscriptions response. -/
theorem store_error_masked_witness :
    handler okEnv validReq
        { data := some [dupSub1, dupSub2], error := some "connection reset" }
        okTransport =
      { response := { status := 200, body := Body.noSubs },
        storeReads := 1, deleteCalls := [] } :=
  store_error_masked okEnv validReq okTransport (some [dupSub1, dupSub2])
    "connection reset" rfl rfl rfl rfl rfl

theorem filter_map_replace {α : Type} (p : α → Bool) (x : α) (hx : p x = true)
    (l : List α) :
    (l.map (fun r => if p r then x else r)).filter p =
      (l.filter p).map (fun _ => x) := by
  induction l with
  | nil => rfl
  | cons a t ih =>
    by_cases h : p a = true
    · simp [List.filter_cons, h, hx, ih]
    · simp [List.filter_cons, h, ih]

theorem upsert_filter_once (table : List SubRow) (row : SubRow)
    (hinv : (table.filter (rowConflicts row)).length ≤ 1) :
    (upsert row table).filter (rowConflicts row) = [row] := by
  have hself : rowConflicts row row = true := by simp [rowConflicts]
  unfold upsert
  by_cases hany : table.any (rowConflicts row) = true
  · rw [if_pos hany]
    rw [filter_map_replace (rowConflicts row) row hself table]
    obtain ⟨x, hmem, hx⟩ := List.any_eq_true.mp hany
    have hpos : 0 < (table.filter (rowConflicts row)).length :=
      List.length_pos_of_mem (List.mem_filter.mpr ⟨hmem, hx⟩)
    have hone : (table.filter (rowConflicts row)).length = 1 :=
      Nat.le_antisymm hinv hpos
    obtain ⟨y, hy⟩ := List.length_eq_one.mp hone
    rw [hy]
    rfl
  · rw [if_neg hany]
    rw [List.filter_append]
    have hnil : table.filter (rowConflicts row) = [] := by
      rw [List.filter_eq_nil_iff]
      intro a ha
      intro hpa
      exact hany (List.any_eq_true.mpr ⟨a, ha, hpa⟩)
    rw [hnil]
    simp [hself]

/-- C9: against a table satisfying the `UNIQUE(user_id, endpoint)`
invariant (at most one row per pair), upserting the same
`(user_id, endpoint)` twice with different credential keys leaves
exactly one row for that pair, carrying the keys of the second
upsert. -/
theorem upsert_round_trip (table : List SubRow) (u e k1 a1 k2 a2 : String)
    (hinv : (table.filter
        (rowConflicts { user_id := u, endpoint := e, p256dh := k2, auth := a2 })).length ≤ 1) :
    (upsert { user_id := u, endpoint := e, p256dh := k2, auth := a2 }
        (upsert { user_id := u, endpoint := e, p256dh := k1, auth := a1 } table)).filter
      (rowConflicts { user_id := u, endpoint := e, p256dh := k2, auth := a2 }) =
      [{ user_id := u, endpoint := e, p256dh := k2, auth := a2 }] := by
  have hpfun : rowConflicts { user_id := u, endpoint := e, p256dh := k1, auth := a1 } =
      rowConflicts { user_id := u, endpoint := e, p256dh := k2, auth := a2 } := rfl
  have hkey : (upsert { user_id := u, endpoint := e, p256dh := k1, auth := a1 } table).filter
      (rowConflicts { user_id := u, endpoint := e, p256dh := k2, auth := a2 }) =
      [{ user_id := u, endpoint := e, p256dh := k1, auth := a1 }] := by
    rw [← hpfun] at hinv ⊢
    exact upsert_filter_once table { user_id := u, endpoint := e, p256dh := k1, auth := a1 } hinv
  have hinv2 : ((upsert { user_id := u, endpoint := e, p256dh := k1, auth := a1 } table).filter
      (rowConflicts { user_id := u, endpoint := e, p256dh := k2, auth := a2 })).length ≤ 1 := by
    rw [hkey]
    simp
  exact upsert_filter_once _ _ hinv2

/-- Concrete instantiation: two upserts of the same pair on the empty
table leave exactly one row, carrying the second keys. -/
theorem upsert_round_trip_witness :
    (upsert { user_id := "u1", endpoint := "https://push.example/ch1", p256dh := "k2", auth := "a2" }
        (upsert { user_id := "u1", endpoint := "https://push.example/ch1", p256dh := "k1", auth := "a1" } [])).filter
      (rowConflicts { user_id := "u1", endpoint := "https://push.example/ch1", p256dh := "k2", auth := "a2" }) =
      [{ user_id := "u1", endpoint := "https://push.example/ch1", p256dh := "k2", auth := "a2" }] :=
  upsert_round_trip [] "u1" "https://push.example/ch1" "k1" "a1" "k2" "a2" (by decide)
